import Mathlib

/-!
Shallow embedding of the Elasticsearch operator reconciliation core
(`pkg/controllers/elasticsearch/elasticsearch.go`): the data model, the spec
validator (`verifyElasticsearchCluster` / `verifyNodePool`), the sync
dispatcher (`sync` / `processNextWorkItem`), the event routers
(`handleDeploy`, `handleStatefulSet`, `handleServiceAccount`,
`handleService`), the enqueue surface and the `Run` startup barrier.
Stateful Go code is embedded as pure functions returning explicit traces of
queue operations and convergence-strategy invocations.
-/

namespace Navigator

/-- Persistence configuration of a node pool (`np.State.Persistence`). -/
structure PersistenceConfig where
  enabled : Bool
  deriving DecidableEq, Repr

/-- Embeds `v1.ElasticsearchClusterNodePoolState`; in Go the `State` field is a
pointer, embedded here as `Option`. -/
structure ElasticsearchClusterNodePoolState where
  stateful : Bool
  persistence : PersistenceConfig
  deriving DecidableEq, Repr

/-- Embeds `v1.ElasticsearchClusterNodePool`: the fields read by `verifyNodePool`. -/
structure ElasticsearchClusterNodePool where
  roles : List String
  state : Option ElasticsearchClusterNodePoolState
  deriving DecidableEq, Repr

/-- Embeds `v1.ElasticsearchClusterSpec`: the fields read by
`verifyElasticsearchCluster`. -/
structure ElasticsearchClusterSpec where
  version : String
  nodePools : List ElasticsearchClusterNodePool
  deriving DecidableEq, Repr

/-- Embeds `v1.ElasticsearchCluster`: identity, spec and deletion marker.  The
deletion timestamp (`metav1.Time`) is embedded as a `Nat` instant. -/
structure ElasticsearchCluster where
  namespace_ : String
  name : String
  spec : ElasticsearchClusterSpec
  deletionTimestamp : Option Nat := none
  deriving DecidableEq, Repr

/-- The distinct error values produced by the validator; each corresponds to
one `fmt.Errorf` in the source, with the offending role name captured. -/
inductive VerifyError where
  | versionMissing : VerifyError
  | invalidRole (role : String) : VerifyError
  | nonStatefulPersistence : VerifyError
  deriving DecidableEq, Repr

/-- The `switch role { case "data", "client", "master": ... }` test inside the
role loop of `verifyNodePool`. -/
def validRole (role : String) : Bool :=
  role = "data" || role = "client" || role = "master"

/-- The `for _, role := range np.Roles` loop of `verifyNodePool`: returns at
the first role outside {data, client, master}. -/
def checkRoles : List String → Option VerifyError
  | [] => none
  | role :: rest =>
    if validRole role then checkRoles rest
    else some (VerifyError.invalidRole role)

/-- Embeds `verifyNodePool`: first the role loop, then (only when `np.State != nil`)
the non-stateful/persistence check. -/
def verifyNodePool (np : ElasticsearchClusterNodePool) : Option VerifyError :=
  match checkRoles np.roles with
  | some e => some e
  | none =>
    match np.state with
    | some st =>
      if !st.stateful && st.persistence.enabled then
        some VerifyError.nonStatefulPersistence
      else
        none
    | none => none

/-- The `for _, np := range c.Spec.NodePools` loop of
`verifyElasticsearchCluster`: returns at the first failing pool. -/
def checkNodePools : List ElasticsearchClusterNodePool → Option VerifyError
  | [] => none
  | np :: rest =>
    match verifyNodePool np with
    | some e => some e
    | none => checkNodePools rest

/-- Embeds `verifyElasticsearchCluster`: empty-version check first, then the node
pools in list order.  `none` is the nil error (acceptance). -/
def verifyElasticsearchCluster (c : ElasticsearchCluster) : Option VerifyError :=
  if c.spec.version = "" then some VerifyError.versionMissing
  else checkNodePools c.spec.nodePools

/-- Outcome of a `Get` on the ElasticsearchCluster lister: the Go
`(es, err)` pair with `errors.IsNotFound(err)` distinguished from any other
lookup error. -/
inductive LookupResult where
  | found (cluster : ElasticsearchCluster)
  | notFound
  | lookupError (msg : String)
  deriving DecidableEq, Repr

/-- The cache layer consulted by `sync` and the subordinate handlers:
`e.esLister.ElasticsearchClusters(namespace).Get(name)`. -/
abbrev Lister := String → String → LookupResult

/-- The pluggable convergence strategy
`e.elasticsearchClusterControl.SyncElasticsearchCluster`; `none` is the nil
error. -/
abbrev ConvergenceStrategy := ElasticsearchCluster → Option String

/-- Result of `cache.SplitMetaNamespaceKey`. -/
inductive SplitResult where
  | ok (namespace_ : String) (name : String)
  | err (msg : String)
  deriving DecidableEq, Repr

/-- Embeds Go strings.Split on the one-character slash separator, over the
character list of the input. -/
def splitSlashAux : List Char → List Char → List String
  | [], acc => [String.mk acc.reverse]
  | c :: rest, acc =>
    if c = '/' then String.mk acc.reverse :: splitSlashAux rest []
    else splitSlashAux rest (c :: acc)

/-- Embeds `cache.SplitMetaNamespaceKey`: at most one `/`; a bare name has empty
namespace; anything else is the "unexpected key format" error. -/
def splitMetaNamespaceKey (key : String) : SplitResult :=
  match splitSlashAux key.data [] with
  | [name] => SplitResult.ok "" name
  | [namespace_, name] => SplitResult.ok namespace_ name
  | _ => SplitResult.err ("unexpected key format: " ++ key)

/-- Embeds `ElasticsearchController.sync`: split the key, look the cluster up,
treat not-found as success, surface any other lookup error, otherwise invoke
the strategy.  The second component records the strategy invocations made
(in order), the first is the returned error. -/
def sync (l : Lister) (strategy : ConvergenceStrategy) (key : String) :
    Option String × List ElasticsearchCluster :=
  match splitMetaNamespaceKey key with
  | SplitResult.err e => (some e, [])
  | SplitResult.ok namespace_ name =>
    match l namespace_ name with
    | LookupResult.notFound => (none, [])
    | LookupResult.lookupError msg => (some msg, [])
    | LookupResult.found es => (strategy es, [es])

/-- The dynamic type of a dequeued work item: a `string` key, a
`*v1.ElasticsearchCluster` snapshot, or anything else (e.g. a
`DeletedFinalStateUnknown` tombstone enqueued raw by the delete handler). -/
inductive KeyItem where
  | str (s : String)
  | cluster (c : ElasticsearchCluster)
  | tombstone
  deriving DecidableEq, Repr

/-- A workqueue operation performed by `processNextWorkItem`. -/
inductive QueueAction where
  | done (k : KeyItem)
  | forget (k : KeyItem)
  | addRateLimited (k : KeyItem)
  deriving DecidableEq, Repr

/-- Observable behaviour of one `processNextWorkItem` call: the queue
operations in execution order (the deferred `Done` runs last), the
strategy invocations, and the returned boolean. -/
structure ProcessTrace where
  actions : List QueueAction
  strategyCalls : List ElasticsearchCluster
  result : Bool
  deriving DecidableEq, Repr

/-- Embeds `ElasticsearchController.processNextWorkItem`.  `none` stands for
`queue.Get` reporting shutdown (`quit`); `some key` is a dequeued item.  A
string key goes through `sync` and is re-queued with backoff on error, else
forgotten; a cluster snapshot is stamped with a deletion timestamp (`now`),
synced once with the error only logged, and forgotten; any other item only
gets the deferred `Done`. -/
def processNextWorkItem (l : Lister) (strategy : ConvergenceStrategy)
    (now : Nat) : Option KeyItem → ProcessTrace
  | none => ⟨[], [], false⟩
  | some key =>
    match key with
    | KeyItem.str k =>
      match sync l strategy k with
      | (some _, calls) =>
        ⟨[QueueAction.addRateLimited key, QueueAction.done key], calls, true⟩
      | (none, calls) =>
        ⟨[QueueAction.forget key, QueueAction.done key], calls, true⟩
    | KeyItem.cluster es =>
      let stamped := { es with deletionTimestamp := some now }
      let _convergeErr := strategy stamped
      ⟨[QueueAction.forget key, QueueAction.done key], [stamped], true⟩
    | KeyItem.tombstone => ⟨[QueueAction.done key], [], true⟩

/-- Modelled from the spec: `controllers.KeyFunc` lives in `pkg/controllers`,
outside the provided source.  Per the spec it produces the ReconcileKey — the
namespace/name pair of the object (the bare name when the namespace is
empty), as `cache.MetaNamespaceKeyFunc` does. -/
def keyFunc (c : ElasticsearchCluster) : SplitResult :=
  SplitResult.ok c.namespace_ c.name

/-- The namespace/name string key `keyFunc` yields for a cluster. -/
def metaNamespaceKey (c : ElasticsearchCluster) : String :=
  if c.namespace_ = "" then c.name else c.namespace_ ++ "/" ++ c.name

/-- Embeds `enqueueElasticsearchCluster`: build the key (dropping the object if the
key function fails) and `queue.Add` it; the returned list holds the items
enqueued. -/
def enqueueElasticsearchCluster (c : ElasticsearchCluster) : List KeyItem :=
  match keyFunc c with
  | SplitResult.err _ => []
  | SplitResult.ok _ _ => [KeyItem.str (metaNamespaceKey c)]

/-- Payload of a cluster delete event: the typed object, or a cache
tombstone such as `DeletedFinalStateUnknown`. -/
inductive DeletePayload where
  | clusterObj (c : ElasticsearchCluster)
  | unknown
  deriving DecidableEq, Repr

/-- Embeds `enqueueElasticsearchClusterDelete`: `queue.Add(obj)` — the payload is
enqueued raw, whatever its type. -/
def enqueueElasticsearchClusterDelete : DeletePayload → List KeyItem
  | DeletePayload.clusterObj c => [KeyItem.cluster c]
  | DeletePayload.unknown => [KeyItem.tombstone]

/-- The ownership marker on a subordinate: owner name + controller flag
(`metav1.OwnerReference`, the fields the router needs). -/
structure OwnerReference where
  name : String
  controller : Option Bool
  deriving DecidableEq, Repr

/-- The metadata the router reads from a subordinate
(`metav1.ObjectMeta`). -/
structure ObjectMeta where
  name : String
  namespace_ : String
  ownerReferences : List OwnerReference
  deriving DecidableEq, Repr

/-- Modelled from the spec: `managedOwnerRef` is defined elsewhere in the
repository, outside the provided source.  Per the spec it extracts the
ownership marker — the owner reference carrying the controller flag — from
the object metadata, returning nil when the object is unmanaged. -/
def managedOwnerRef (meta : ObjectMeta) : Option OwnerReference :=
  meta.ownerReferences.find? (fun ref => ref.controller = some true)

/-- Embeds `extensions.Deployment`: only its metadata matters to the router. -/
structure Deployment where
  objectMeta : ObjectMeta
  deriving DecidableEq, Repr

/-- Embeds `apps.StatefulSet`: only its metadata matters to the router. -/
structure StatefulSet where
  objectMeta : ObjectMeta
  deriving DecidableEq, Repr

/-- Embeds `apiv1.ServiceAccount`: only its metadata matters to the router. -/
structure ServiceAccount where
  objectMeta : ObjectMeta
  deriving DecidableEq, Repr

/-- Embeds `apiv1.Service`: only its metadata matters to the router. -/
structure Service where
  objectMeta : ObjectMeta
  deriving DecidableEq, Repr

/-- An `interface\x7b\x7d` event payload for a subordinate kind: either the
properly typed object or something whose checked downcast fails. -/
inductive SubordinatePayload (α : Type) where
  | typed (obj : α)
  | wrongType
  deriving DecidableEq, Repr

/-- Shared body of the four subordinate handlers: checked downcast (drop on
mismatch), ownership-marker extraction (ignore when absent), owner lookup in
the subordinate's namespace (drop as orphaned on any error), then enqueue of
the owner's key. -/
def handleSubordinate {α : Type} (meta : α → ObjectMeta) (l : Lister) :
    SubordinatePayload α → List KeyItem
  | SubordinatePayload.wrongType => []
  | SubordinatePayload.typed obj =>
    match managedOwnerRef (meta obj) with
    | none => []
    | some ownerRef =>
      match l (meta obj).namespace_ ownerRef.name with
      | LookupResult.found cluster => enqueueElasticsearchCluster cluster
      | LookupResult.notFound => []
      | LookupResult.lookupError _ => []

/-- Embeds `ElasticsearchController.handleDeploy`. -/
def handleDeploy (l : Lister) : SubordinatePayload Deployment → List KeyItem :=
  handleSubordinate Deployment.objectMeta l

/-- Embeds `ElasticsearchController.handleStatefulSet`. -/
def handleStatefulSet (l : Lister) :
    SubordinatePayload StatefulSet → List KeyItem :=
  handleSubordinate StatefulSet.objectMeta l

/-- Embeds `ElasticsearchController.handleServiceAccount`. -/
def handleServiceAccount (l : Lister) :
    SubordinatePayload ServiceAccount → List KeyItem :=
  handleSubordinate ServiceAccount.objectMeta l

/-- Embeds `ElasticsearchController.handleService`. -/
def handleService (l : Lister) : SubordinatePayload Service → List KeyItem :=
  handleSubordinate Service.objectMeta l

/-- The `UpdateFunc` registered for the cluster informer in
`NewElasticsearch`: `reflect.DeepEqual(old, cur)` suppresses the event,
otherwise the add path (`enqueueElasticsearchCluster`) runs on `cur`. -/
def elasticsearchClusterUpdateFunc (old cur : ElasticsearchCluster) :
    List KeyItem :=
  if old = cur then [] else enqueueElasticsearchCluster cur

/-- The `UpdateFunc` registered for the deployment informer: identical
old/new suppressed, otherwise `handleDeploy` on the new object. -/
def deployUpdateFunc (l : Lister) (old cur : SubordinatePayload Deployment) :
    List KeyItem :=
  if old = cur then [] else handleDeploy l cur

/-- The `DeleteFunc` registered for the deployment informer: `handleDeploy`
on the payload. -/
def deployDeleteFunc (l : Lister) (obj : SubordinatePayload Deployment) :
    List KeyItem :=
  handleDeploy l obj

/-- The `UpdateFunc` registered for the statefulset informer. -/
def statefulSetUpdateFunc (l : Lister)
    (old new_ : SubordinatePayload StatefulSet) : List KeyItem :=
  if old = new_ then [] else handleStatefulSet l new_

/-- The `DeleteFunc` registered for the statefulset informer. -/
def statefulSetDeleteFunc (l : Lister) (obj : SubordinatePayload StatefulSet) :
    List KeyItem :=
  handleStatefulSet l obj

/-- The `UpdateFunc` registered for the serviceaccount informer. -/
def serviceAccountUpdateFunc (l : Lister)
    (old new_ : SubordinatePayload ServiceAccount) : List KeyItem :=
  if old = new_ then [] else handleServiceAccount l new_

/-- The `DeleteFunc` registered for the serviceaccount informer. -/
def serviceAccountDeleteFunc (l : Lister)
    (obj : SubordinatePayload ServiceAccount) : List KeyItem :=
  handleServiceAccount l obj

/-- The `UpdateFunc` registered for the service informer. -/
def serviceUpdateFunc (l : Lister) (old new_ : SubordinatePayload Service) :
    List KeyItem :=
  if old = new_ then [] else handleService l new_

/-- The `DeleteFunc` registered for the service informer. -/
def serviceDeleteFunc (l : Lister) (obj : SubordinatePayload Service) :
    List KeyItem :=
  handleService l obj

/-- The five informer caches the controller tracks `HasSynced` signals
for. -/
inductive CacheKind where
  | elasticsearchCluster
  | deployment
  | statefulSet
  | serviceAccount
  | service
  deriving DecidableEq, Repr

/-- A snapshot of the five `HasSynced` signals. -/
structure CacheSyncState where
  esSynced : Bool
  deploySynced : Bool
  statefulSetSynced : Bool
  serviceAccountSynced : Bool
  serviceSynced : Bool
  deriving DecidableEq, Repr

/-- The synced signals `Run` actually passes to `cache.WaitForCacheSync`, in
argument order: `e.deployListerSynced, e.esListerSynced,
e.statefulSetListerSynced`. -/
def runWaitedCaches : List CacheKind :=
  [CacheKind.deployment, CacheKind.elasticsearchCluster,
   CacheKind.statefulSet]

/-- Whether a cache kind reports synced in a given snapshot. -/
def cacheSynced (s : CacheSyncState) : CacheKind → Bool
  | CacheKind.elasticsearchCluster => s.esSynced
  | CacheKind.deployment => s.deploySynced
  | CacheKind.statefulSet => s.statefulSetSynced
  | CacheKind.serviceAccount => s.serviceAccountSynced
  | CacheKind.service => s.serviceSynced

/-- Embeds `cache.WaitForCacheSync` as called by `Run`, against a stable snapshot of
the synced signals: succeeds exactly when every waited-on cache reports
synced (a `false` is the timed-out wait). -/
def waitForCacheSync (s : CacheSyncState) : Bool :=
  runWaitedCaches.all (cacheSynced s)

/-- A phase of `Run`, in execution order. -/
inductive RunEvent where
  | waitedForCaches (kinds : List CacheKind) (ok : Bool)
  | loggedSyncTimeout
  | startedWorkers (n : Nat)
  | blockedOnStop
  deriving DecidableEq, Repr

/-- Embeds `ElasticsearchController.Run` against a stable cache snapshot: wait on
the three synced signals, log (via `utilruntime.HandleError`) without
halting if the wait failed, start the `workers` loops, then block on the
stop channel. -/
def run (s : CacheSyncState) (workers : Nat) : List RunEvent :=
  let ok := waitForCacheSync s
  [RunEvent.waitedForCaches runWaitedCaches ok]
    ++ (if ok then [] else [RunEvent.loggedSyncTimeout])
    ++ [RunEvent.startedWorkers workers, RunEvent.blockedOnStop]

/-- All violations of a node pool listed in the order `verifyNodePool`
checks them: the invalid roles in list order, then the
non-stateful/persistence violation. -/
def nodePoolViolations (np : ElasticsearchClusterNodePool) : List VerifyError :=
  (np.roles.filter (fun r => !validRole r)).map VerifyError.invalidRole
    ++ (match np.state with
        | some st =>
          if !st.stateful && st.persistence.enabled then
            [VerifyError.nonStatefulPersistence]
          else []
        | none => [])

/-- All violations of a cluster listed in the order
`verifyElasticsearchCluster` checks them: the empty-version violation first,
then each node pool's violations in pool order. -/
def clusterViolations (c : ElasticsearchCluster) : List VerifyError :=
  (if c.spec.version = "" then [VerifyError.versionMissing] else [])
    ++ (c.spec.nodePools.map nodePoolViolations).flatten

theorem checkRoles_eq_head (roles : List String) :
    checkRoles roles =
      ((roles.filter (fun r => !validRole r)).map VerifyError.invalidRole).head? := by
  induction roles with
  | nil => rfl
  | cons r rest ih =>
    cases h : validRole r with
    | true => simp [checkRoles, h, List.filter_cons, ih]
    | false => simp [checkRoles, h, List.filter_cons]

theorem verifyNodePool_eq_head (np : ElasticsearchClusterNodePool) :
    verifyNodePool np = (nodePoolViolations np).head? := by
  unfold verifyNodePool nodePoolViolations
  rw [checkRoles_eq_head]
  cases hf : (np.roles.filter (fun r => !validRole r)).map VerifyError.invalidRole with
  | cons e l => simp [hf]
  | nil =>
    cases hs : np.state with
    | none => simp
    | some st =>
      cases hp : (!st.stateful && st.persistence.enabled) with
      | true => simp [hp]
      | false => simp [hp]

theorem checkNodePools_eq_head (pools : List ElasticsearchClusterNodePool) :
    checkNodePools pools = ((pools.map nodePoolViolations).flatten).head? := by
  induction pools with
  | nil => rfl
  | cons np rest ih =>
    rw [List.map_cons, List.flatten_cons]
    show (match verifyNodePool np with
          | some e => some e
          | none => checkNodePools rest) = _
    rw [verifyNodePool_eq_head]
    cases h : nodePoolViolations np with
    | nil => simpa [h] using ih
    | cons e l => simp [h]

theorem verify_eq_violations_head (c : ElasticsearchCluster) :
    verifyElasticsearchCluster c = (clusterViolations c).head? := by
  unfold verifyElasticsearchCluster clusterViolations
  cases h : decide (c.spec.version = "") with
  | true =>
    simp only [of_decide_eq_true h, if_pos (of_decide_eq_true h)]
    simp
  | false =>
    have h' := of_decide_eq_false h
    simp only [h', if_neg h']
    rw [checkNodePools_eq_head]
    simp

theorem checkRoles_eq_none_iff (roles : List String) :
    checkRoles roles = none ↔ ∀ r ∈ roles, validRole r = true := by
  induction roles with
  | nil => simp [checkRoles]
  | cons r rest ih =>
    cases h : validRole r with
    | true => simp [checkRoles, h, ih]
    | false => simp [checkRoles, h]

theorem verifyNodePool_eq_none_iff (np : ElasticsearchClusterNodePool) :
    verifyNodePool np = none ↔
      ((∀ r ∈ np.roles, validRole r = true) ∧
        ∀ st, np.state = some st →
          (st.stateful = false → st.persistence.enabled = false)) := by
  unfold verifyNodePool
  cases hr : checkRoles np.roles with
  | some e => simp [(checkRoles_eq_none_iff np.roles).not.mp (by simp [hr]), hr]
  | none =>
    have hroles := (checkRoles_eq_none_iff np.roles).mp hr
    cases hs : np.state with
    | none =>
      simp
      exact hroles
    | some st =>
      cases hst : st.stateful with
      | false =>
        cases hp : st.persistence.enabled with
        | false =>
          simp [hst, hp]
          exact hroles
        | true => simp [hroles, hst, hp]
      | true =>
        simp [hst]
        exact hroles

theorem checkNodePools_eq_none_iff (pools : List ElasticsearchClusterNodePool) :
    checkNodePools pools = none ↔ ∀ np ∈ pools, verifyNodePool np = none := by
  induction pools with
  | nil => simp [checkNodePools]
  | cons np rest ih =>
    cases h : verifyNodePool np with
    | some e => simp [checkNodePools, h]
    | none => simp [checkNodePools, h, ih]

theorem validRole_iff (r : String) :
    validRole r = true ↔ (r = "data" ∨ r = "client" ∨ r = "master") := by
  simp [validRole, or_assoc]

theorem verifyNodePool_ne_none_iff (np : ElasticsearchClusterNodePool) :
    verifyNodePool np ≠ none ↔
      ((∃ r ∈ np.roles, r ≠ "data" ∧ r ≠ "client" ∧ r ≠ "master") ∨
        ∃ st, np.state = some st ∧ st.stateful = false ∧
          st.persistence.enabled = true) := by
  rw [Ne, verifyNodePool_eq_none_iff]
  push_neg
  constructor
  · intro h
    by_cases hr : ∀ r ∈ np.roles, validRole r = true
    · obtain ⟨st, hst, hsf, hen⟩ := h hr
      exact Or.inr ⟨st, hst, hsf, by simpa using hen⟩
    · push_neg at hr
      obtain ⟨r, hmem, hbad⟩ := hr
      refine Or.inl ⟨r, hmem, ?_⟩
      have := (validRole_iff r).not.mp (by simpa using hbad)
      push_neg at this
      exact this
  · intro h hr
    cases h with
    | inl hrole =>
      obtain ⟨r, hmem, h1, h2, h3⟩ := hrole
      have := hr r hmem
      rw [validRole_iff] at this
      rcases this with h | h | h
      · exact absurd h h1
      · exact absurd h h2
      · exact absurd h h3
    | inr hstate =>
      obtain ⟨st, hst, hsf, hen⟩ := hstate
      exact ⟨st, hst, hsf, by simpa using hen⟩

/-- C2: the validator rejects a ClusterResource iff its version is empty, or
some NodePool has a role outside {data, client, master}, or some NodePool is
simultaneously non-stateful and persistence-enabled; in particular
`version=""` is rejected, role `"worker"` is rejected with a role-naming
error, `{stateful:false, persistence:true}` is rejected, and
`{stateful:false, persistence:false}` and `{stateful:true, persistence:true}`
are accepted. -/
theorem c2_validator_rejects_iff :
    (∀ c : ElasticsearchCluster,
      verifyElasticsearchCluster c ≠ none ↔
        (c.spec.version = "" ∨
          ∃ np ∈ c.spec.nodePools,
            (∃ r ∈ np.roles, r ≠ "data" ∧ r ≠ "client" ∧ r ≠ "master") ∨
            ∃ st, np.state = some st ∧ st.stateful = false ∧
              st.persistence.enabled = true))
    ∧ verifyElasticsearchCluster ⟨"ns", "a", ⟨"", []⟩, none⟩
        = some VerifyError.versionMissing
    ∧ verifyElasticsearchCluster ⟨"ns", "a", ⟨"7.1", [⟨["worker"], none⟩]⟩, none⟩
        = some (VerifyError.invalidRole "worker")
    ∧ verifyElasticsearchCluster
        ⟨"ns", "a", ⟨"7.1", [⟨["data"], some ⟨false, ⟨true⟩⟩⟩]⟩, none⟩ ≠ none
    ∧ verifyElasticsearchCluster
        ⟨"ns", "a", ⟨"7.1", [⟨["data"], some ⟨false, ⟨false⟩⟩⟩]⟩, none⟩ = none
    ∧ verifyElasticsearchCluster
        ⟨"ns", "a", ⟨"7.1", [⟨["data"], some ⟨true, ⟨true⟩⟩⟩]⟩, none⟩ = none := by
  refine ⟨?_, by decide, by decide, by decide, by decide, by decide⟩
  intro c
  by_cases hv : c.spec.version = ""
  · simp [verifyElasticsearchCluster, hv]
  · rw [verifyElasticsearchCluster, if_neg hv]
    have : checkNodePools c.spec.nodePools ≠ none ↔
        ∃ np ∈ c.spec.nodePools, verifyNodePool np ≠ none := by
      rw [Ne, checkNodePools_eq_none_iff]
      push_neg
      rfl
    rw [this]
    simp only [hv, false_or]
    constructor
    · intro ⟨np, hmem, hne⟩
      exact ⟨np, hmem, (verifyNodePool_ne_none_iff np).mp hne⟩
    · intro ⟨np, hmem, hviol⟩
      exact ⟨np, hmem, (verifyNodePool_ne_none_iff np).mpr hviol⟩

/-- C8: the validator returns exactly the first violation in check order —
empty version first, then node pools in list order, and within a pool role
violations before the stateful/persistence violation — never aggregating
several violations into one result. -/
theorem c8_validator_first_violation :
    (∀ c : ElasticsearchCluster,
      verifyElasticsearchCluster c = (clusterViolations c).head?)
    ∧ (∀ np : ElasticsearchClusterNodePool,
      verifyNodePool np = (nodePoolViolations np).head?)
    ∧ verifyElasticsearchCluster
        ⟨"ns", "a", ⟨"", [⟨["worker"], some ⟨false, ⟨true⟩⟩⟩]⟩, none⟩
        = some VerifyError.versionMissing
    ∧ verifyElasticsearchCluster
        ⟨"ns", "a", ⟨"7.1", [⟨["worker"], some ⟨false, ⟨true⟩⟩⟩]⟩, none⟩
        = some (VerifyError.invalidRole "worker")
    ∧ verifyElasticsearchCluster
        ⟨"ns", "a", ⟨"7.1", [⟨["data"], some ⟨false, ⟨true⟩⟩⟩,
          ⟨["worker"], none⟩]⟩, none⟩
        = some VerifyError.nonStatefulPersistence :=
  ⟨verify_eq_violations_head, verifyNodePool_eq_head,
    by decide, by decide, by decide⟩

/-- C10: when a node pool's State field is nil the stateful/persistence
check is skipped entirely, so `verifyNodePool` accepts the pool exactly when
all of its roles lie in {data, client, master}. -/
theorem c10_nil_state_skips_persistence_check
    (np : ElasticsearchClusterNodePool) (h : np.state = none) :
    verifyNodePool np = none ↔ ∀ r ∈ np.roles, validRole r = true := by
  rw [verifyNodePool_eq_none_iff]
  simp [h]

theorem c10_witness :
    verifyNodePool ⟨["data", "client", "master"], none⟩ = none :=
  (c10_nil_state_skips_persistence_check
    ⟨["data", "client", "master"], none⟩ rfl).mpr (by decide)

/-- C1: for a dequeued string key, a not-found lookup yields success and
`Forget` (no retry); a malformed key, any other lookup error, or a non-nil
strategy error yields `AddRateLimited`; a nil strategy error yields
`Forget`.  The deferred `Done` always runs last. -/
theorem c1_string_key_dispatch (l : Lister) (strategy : ConvergenceStrategy)
    (now : Nat) (k : String) :
    (∀ ns n, splitMetaNamespaceKey k = SplitResult.ok ns n →
      l ns n = LookupResult.notFound →
      processNextWorkItem l strategy now (some (KeyItem.str k)) =
        ⟨[QueueAction.forget (KeyItem.str k),
          QueueAction.done (KeyItem.str k)], [], true⟩)
    ∧ (∀ msg, splitMetaNamespaceKey k = SplitResult.err msg →
      processNextWorkItem l strategy now (some (KeyItem.str k)) =
        ⟨[QueueAction.addRateLimited (KeyItem.str k),
          QueueAction.done (KeyItem.str k)], [], true⟩)
    ∧ (∀ ns n msg, splitMetaNamespaceKey k = SplitResult.ok ns n →
      l ns n = LookupResult.lookupError msg →
      processNextWorkItem l strategy now (some (KeyItem.str k)) =
        ⟨[QueueAction.addRateLimited (KeyItem.str k),
          QueueAction.done (KeyItem.str k)], [], true⟩)
    ∧ (∀ ns n c msg, splitMetaNamespaceKey k = SplitResult.ok ns n →
      l ns n = LookupResult.found c → strategy c = some msg →
      processNextWorkItem l strategy now (some (KeyItem.str k)) =
        ⟨[QueueAction.addRateLimited (KeyItem.str k),
          QueueAction.done (KeyItem.str k)], [c], true⟩)
    ∧ (∀ ns n c, splitMetaNamespaceKey k = SplitResult.ok ns n →
      l ns n = LookupResult.found c → strategy c = none →
      processNextWorkItem l strategy now (some (KeyItem.str k)) =
        ⟨[QueueAction.forget (KeyItem.str k),
          QueueAction.done (KeyItem.str k)], [c], true⟩) := by
  refine ⟨?_, ?_, ?_, ?_, ?_⟩
  · intro ns n hsplit hlook
    simp [processNextWorkItem, sync, hsplit, hlook]
  · intro msg hsplit
    simp [processNextWorkItem, sync, hsplit]
  · intro ns n msg hsplit hlook
    simp [processNextWorkItem, sync, hsplit, hlook]
  · intro ns n c msg hsplit hlook hstrat
    simp [processNextWorkItem, sync, hsplit, hlook, hstrat]
  · intro ns n c hsplit hlook hstrat
    simp [processNextWorkItem, sync, hsplit, hlook, hstrat]

theorem c1_witness :
    (processNextWorkItem (fun _ _ => LookupResult.notFound) (fun _ => none) 0
        (some (KeyItem.str "ns/a")) =
      ⟨[QueueAction.forget (KeyItem.str "ns/a"),
        QueueAction.done (KeyItem.str "ns/a")], [], true⟩)
    ∧ (processNextWorkItem (fun _ _ => LookupResult.notFound) (fun _ => none) 0
        (some (KeyItem.str "a/b/c")) =
      ⟨[QueueAction.addRateLimited (KeyItem.str "a/b/c"),
        QueueAction.done (KeyItem.str "a/b/c")], [], true⟩)
    ∧ (processNextWorkItem (fun _ _ => LookupResult.lookupError "boom")
        (fun _ => none) 0 (some (KeyItem.str "ns/a")) =
      ⟨[QueueAction.addRateLimited (KeyItem.str "ns/a"),
        QueueAction.done (KeyItem.str "ns/a")], [], true⟩)
    ∧ (processNextWorkItem
        (fun _ _ => LookupResult.found ⟨"ns", "a", ⟨"7.1", []⟩, none⟩)
        (fun _ => some "converge failed") 0 (some (KeyItem.str "ns/a")) =
      ⟨[QueueAction.addRateLimited (KeyItem.str "ns/a"),
        QueueAction.done (KeyItem.str "ns/a")],
        [⟨"ns", "a", ⟨"7.1", []⟩, none⟩], true⟩)
    ∧ (processNextWorkItem
        (fun _ _ => LookupResult.found ⟨"ns", "a", ⟨"7.1", []⟩, none⟩)
        (fun _ => none) 0 (some (KeyItem.str "ns/a")) =
      ⟨[QueueAction.forget (KeyItem.str "ns/a"),
        QueueAction.done (KeyItem.str "ns/a")],
        [⟨"ns", "a", ⟨"7.1", []⟩, none⟩], true⟩) :=
  ⟨(c1_string_key_dispatch (fun _ _ => LookupResult.notFound) (fun _ => none)
      0 "ns/a").1 "ns" "a" (by decide) rfl,
    (c1_string_key_dispatch (fun _ _ => LookupResult.notFound) (fun _ => none)
      0 "a/b/c").2.1 "unexpected key format: a/b/c" (by decide),
    (c1_string_key_dispatch (fun _ _ => LookupResult.lookupError "boom")
      (fun _ => none) 0 "ns/a").2.2.1 "ns" "a" "boom" (by decide) rfl,
    (c1_string_key_dispatch
      (fun _ _ => LookupResult.found ⟨"ns", "a", ⟨"7.1", []⟩, none⟩)
      (fun _ => some "converge failed") 0 "ns/a").2.2.2.1 "ns" "a"
      ⟨"ns", "a", ⟨"7.1", []⟩, none⟩ "converge failed" (by decide) rfl rfl,
    (c1_string_key_dispatch
      (fun _ _ => LookupResult.found ⟨"ns", "a", ⟨"7.1", []⟩, none⟩)
      (fun _ => none) 0 "ns/a").2.2.2.2 "ns" "a"
      ⟨"ns", "a", ⟨"7.1", []⟩, none⟩ (by decide) rfl rfl⟩

/-- C3: a dequeued `*ElasticsearchCluster` snapshot gets a non-nil deletion
timestamp, the strategy is invoked exactly once with the stamped snapshot,
and the key is forgotten regardless of the strategy's outcome —
`AddRateLimited` is never called on it. -/
theorem c3_snapshot_key_forgotten (l : Lister) (strategy : ConvergenceStrategy)
    (now : Nat) (es : ElasticsearchCluster) :
    processNextWorkItem l strategy now (some (KeyItem.cluster es)) =
      ⟨[QueueAction.forget (KeyItem.cluster es),
        QueueAction.done (KeyItem.cluster es)],
        [{ es with deletionTimestamp := some now }], true⟩
    ∧ ({ es with deletionTimestamp := some now }).deletionTimestamp ≠ none
    ∧ ∀ k, QueueAction.addRateLimited k ∉
        (processNextWorkItem l strategy now (some (KeyItem.cluster es))).actions := by
  refine ⟨rfl, by simp, ?_⟩
  intro k
  simp [processNextWorkItem]

/-- C7: the sync dispatcher invokes the convergence strategy unconditionally
on every fetched cluster — never consulting `verifyElasticsearchCluster`
first — including clusters whose spec the validator rejects. -/
theorem c7_sync_skips_validator (l : Lister) (strategy : ConvergenceStrategy)
    (k ns n : String) (c : ElasticsearchCluster)
    (hsplit : splitMetaNamespaceKey k = SplitResult.ok ns n)
    (hfound : l ns n = LookupResult.found c) :
    (sync l strategy k).2 = [c] ∧ (sync l strategy k).1 = strategy c ∧
      (verifyElasticsearchCluster c ≠ none → (sync l strategy k).2 = [c]) := by
  simp [sync, hsplit, hfound]

theorem c7_witness :
    verifyElasticsearchCluster ⟨"ns", "a", ⟨"", []⟩, none⟩ ≠ none ∧
      (sync (fun _ _ => LookupResult.found ⟨"ns", "a", ⟨"", []⟩, none⟩)
        (fun _ => none) "ns/a").2 = [⟨"ns", "a", ⟨"", []⟩, none⟩] :=
  ⟨by decide,
    (c7_sync_skips_validator
      (fun _ _ => LookupResult.found ⟨"ns", "a", ⟨"", []⟩, none⟩)
      (fun _ => none) "ns/a" "ns" "a" ⟨"ns", "a", ⟨"", []⟩, none⟩
      (by decide) rfl).1⟩

/-- C9: a dequeued item that is neither a string nor a cluster snapshot (for
example a tombstone enqueued raw by the delete handler) only gets the
deferred `Done` and a `true` return — no sync, no strategy call, no
`Forget`, no `AddRateLimited`. -/
theorem c9_unknown_key_discarded (l : Lister) (strategy : ConvergenceStrategy)
    (now : Nat) :
    processNextWorkItem l strategy now (some KeyItem.tombstone) =
      ⟨[QueueAction.done KeyItem.tombstone], [], true⟩
    ∧ enqueueElasticsearchClusterDelete DeletePayload.unknown = [KeyItem.tombstone]
    ∧ (∀ k, QueueAction.forget k ∉
        (processNextWorkItem l strategy now (some KeyItem.tombstone)).actions)
    ∧ (∀ k, QueueAction.addRateLimited k ∉
        (processNextWorkItem l strategy now (some KeyItem.tombstone)).actions)
    ∧ (processNextWorkItem l strategy now (some KeyItem.tombstone)).strategyCalls
        = [] := by
  refine ⟨rfl, rfl, ?_, ?_, rfl⟩ <;> intro k <;> simp [processNextWorkItem]

theorem handleSubordinate_spec {α : Type} (meta : α → ObjectMeta) (l : Lister) :
    (handleSubordinate meta l SubordinatePayload.wrongType = [])
    ∧ (∀ obj, managedOwnerRef (meta obj) = none →
        handleSubordinate meta l (SubordinatePayload.typed obj) = [])
    ∧ (∀ obj ref, managedOwnerRef (meta obj) = some ref →
        l (meta obj).namespace_ ref.name = LookupResult.notFound →
        handleSubordinate meta l (SubordinatePayload.typed obj) = [])
    ∧ (∀ obj ref msg, managedOwnerRef (meta obj) = some ref →
        l (meta obj).namespace_ ref.name = LookupResult.lookupError msg →
        handleSubordinate meta l (SubordinatePayload.typed obj) = [])
    ∧ (∀ obj ref c, managedOwnerRef (meta obj) = some ref →
        l (meta obj).namespace_ ref.name = LookupResult.found c →
        handleSubordinate meta l (SubordinatePayload.typed obj) =
          [KeyItem.str (metaNamespaceKey c)]) := by
  refine ⟨rfl, ?_, ?_, ?_, ?_⟩
  · intro obj href
    simp [handleSubordinate, href]
  · intro obj ref href hlook
    simp [handleSubordinate, href, hlook]
  · intro obj ref msg href hlook
    simp [handleSubordinate, href, hlook]
  · intro obj ref c href hlook
    simp [handleSubordinate, href, hlook, enqueueElasticsearchCluster, keyFunc]

/-- A cluster fixture used by the witnesses: `ns/a`, version 7.1, one valid
stateful data pool. -/
def sampleCluster : ElasticsearchCluster :=
  ⟨"ns", "a", ⟨"7.1", [⟨["data"], some ⟨true, ⟨false⟩⟩⟩]⟩, none⟩

/-- Metadata of a subordinate owned (controller flag set) by cluster `a`. -/
def ownedMeta : ObjectMeta := ⟨"a-data", "ns", [⟨"a", some true⟩]⟩

/-- Metadata of a subordinate with no ownership marker. -/
def unmanagedMeta : ObjectMeta := ⟨"loose", "ns", []⟩

/-- A lister fixture resolving only `ns/a` to `sampleCluster`. -/
def sampleLister : Lister := fun namespace_ name =>
  if namespace_ = "ns" ∧ name = "a" then LookupResult.found sampleCluster
  else LookupResult.notFound

/-- C6: each subordinate handler drops a payload failing the typed downcast,
ignores objects without an ownership marker, drops orphans whose owner
cannot be resolved, and otherwise enqueues exactly the owning cluster's
namespace/name key; the registered delete handlers route through the same
functions. -/
theorem c6_subordinate_routing (l : Lister) :
    ((handleDeploy l SubordinatePayload.wrongType = [])
      ∧ (∀ d : Deployment, managedOwnerRef d.objectMeta = none →
          handleDeploy l (SubordinatePayload.typed d) = [])
      ∧ (∀ (d : Deployment) ref, managedOwnerRef d.objectMeta = some ref →
          l d.objectMeta.namespace_ ref.name = LookupResult.notFound →
          handleDeploy l (SubordinatePayload.typed d) = [])
      ∧ (∀ (d : Deployment) ref msg, managedOwnerRef d.objectMeta = some ref →
          l d.objectMeta.namespace_ ref.name = LookupResult.lookupError msg →
          handleDeploy l (SubordinatePayload.typed d) = [])
      ∧ (∀ (d : Deployment) ref c, managedOwnerRef d.objectMeta = some ref →
          l d.objectMeta.namespace_ ref.name = LookupResult.found c →
          handleDeploy l (SubordinatePayload.typed d) =
            [KeyItem.str (metaNamespaceKey c)])
      ∧ (∀ p, deployDeleteFunc l p = handleDeploy l p))
    ∧ ((handleStatefulSet l SubordinatePayload.wrongType = [])
      ∧ (∀ ss : StatefulSet, managedOwnerRef ss.objectMeta = none →
          handleStatefulSet l (SubordinatePayload.typed ss) = [])
      ∧ (∀ (ss : StatefulSet) ref, managedOwnerRef ss.objectMeta = some ref →
          l ss.objectMeta.namespace_ ref.name = LookupResult.notFound →
          handleStatefulSet l (SubordinatePayload.typed ss) = [])
      ∧ (∀ (ss : StatefulSet) ref msg, managedOwnerRef ss.objectMeta = some ref →
          l ss.objectMeta.namespace_ ref.name = LookupResult.lookupError msg →
          handleStatefulSet l (SubordinatePayload.typed ss) = [])
      ∧ (∀ (ss : StatefulSet) ref c, managedOwnerRef ss.objectMeta = some ref →
          l ss.objectMeta.namespace_ ref.name = LookupResult.found c →
          handleStatefulSet l (SubordinatePayload.typed ss) =
            [KeyItem.str (metaNamespaceKey c)])
      ∧ (∀ p, statefulSetDeleteFunc l p = handleStatefulSet l p))
    ∧ ((handleServiceAccount l SubordinatePayload.wrongType = [])
      ∧ (∀ sa : ServiceAccount, managedOwnerRef sa.objectMeta = none →
          handleServiceAccount l (SubordinatePayload.typed sa) = [])
      ∧ (∀ (sa : ServiceAccount) ref, managedOwnerRef sa.objectMeta = some ref →
          l sa.objectMeta.namespace_ ref.name = LookupResult.notFound →
          handleServiceAccount l (SubordinatePayload.typed sa) = [])
      ∧ (∀ (sa : ServiceAccount) ref msg, managedOwnerRef sa.objectMeta = some ref →
          l sa.objectMeta.namespace_ ref.name = LookupResult.lookupError msg →
          handleServiceAccount l (SubordinatePayload.typed sa) = [])
      ∧ (∀ (sa : ServiceAccount) ref c, managedOwnerRef sa.objectMeta = some ref →
          l sa.objectMeta.namespace_ ref.name = LookupResult.found c →
          handleServiceAccount l (SubordinatePayload.typed sa) =
            [KeyItem.str (metaNamespaceKey c)])
      ∧ (∀ p, serviceAccountDeleteFunc l p = handleServiceAccount l p))
    ∧ ((handleService l SubordinatePayload.wrongType = [])
      ∧ (∀ sv : Service, managedOwnerRef sv.objectMeta = none →
          handleService l (SubordinatePayload.typed sv) = [])
      ∧ (∀ (sv : Service) ref, managedOwnerRef sv.objectMeta = some ref →
          l sv.objectMeta.namespace_ ref.name = LookupResult.notFound →
          handleService l (SubordinatePayload.typed sv) = [])
      ∧ (∀ (sv : Service) ref msg, managedOwnerRef sv.objectMeta = some ref →
          l sv.objectMeta.namespace_ ref.name = LookupResult.lookupError msg →
          handleService l (SubordinatePayload.typed sv) = [])
      ∧ (∀ (sv : Service) ref c, managedOwnerRef sv.objectMeta = some ref →
          l sv.objectMeta.namespace_ ref.name = LookupResult.found c →
          handleService l (SubordinatePayload.typed sv) =
            [KeyItem.str (metaNamespaceKey c)])
      ∧ (∀ p, serviceDeleteFunc l p = handleService l p)) :=
  ⟨⟨(handleSubordinate_spec Deployment.objectMeta l).1,
    (handleSubordinate_spec Deployment.objectMeta l).2.1,
    (handleSubordinate_spec Deployment.objectMeta l).2.2.1,
    (handleSubordinate_spec Deployment.objectMeta l).2.2.2.1,
    (handleSubordinate_spec Deployment.objectMeta l).2.2.2.2,
    fun _ => rfl⟩,
   ⟨(handleSubordinate_spec StatefulSet.objectMeta l).1,
    (handleSubordinate_spec StatefulSet.objectMeta l).2.1,
    (handleSubordinate_spec StatefulSet.objectMeta l).2.2.1,
    (handleSubordinate_spec StatefulSet.objectMeta l).2.2.2.1,
    (handleSubordinate_spec StatefulSet.objectMeta l).2.2.2.2,
    fun _ => rfl⟩,
   ⟨(handleSubordinate_spec ServiceAccount.objectMeta l).1,
    (handleSubordinate_spec ServiceAccount.objectMeta l).2.1,
    (handleSubordinate_spec ServiceAccount.objectMeta l).2.2.1,
    (handleSubordinate_spec ServiceAccount.objectMeta l).2.2.2.1,
    (handleSubordinate_spec ServiceAccount.objectMeta l).2.2.2.2,
    fun _ => rfl⟩,
   ⟨(handleSubordinate_spec Service.objectMeta l).1,
    (handleSubordinate_spec Service.objectMeta l).2.1,
    (handleSubordinate_spec Service.objectMeta l).2.2.1,
    (handleSubordinate_spec Service.objectMeta l).2.2.2.1,
    (handleSubordinate_spec Service.objectMeta l).2.2.2.2,
    fun _ => rfl⟩⟩

theorem c6_witness :
    (handleDeploy sampleLister (SubordinatePayload.typed ⟨unmanagedMeta⟩) = [])
    ∧ (handleDeploy (fun _ _ => LookupResult.notFound)
        (SubordinatePayload.typed ⟨ownedMeta⟩) = [])
    ∧ (handleDeploy sampleLister (SubordinatePayload.typed ⟨ownedMeta⟩) =
        [KeyItem.str (metaNamespaceKey sampleCluster)])
    ∧ (handleStatefulSet sampleLister (SubordinatePayload.typed ⟨ownedMeta⟩) =
        [KeyItem.str (metaNamespaceKey sampleCluster)])
    ∧ (handleServiceAccount sampleLister (SubordinatePayload.typed ⟨ownedMeta⟩) =
        [KeyItem.str (metaNamespaceKey sampleCluster)])
    ∧ (handleService sampleLister (SubordinatePayload.typed ⟨ownedMeta⟩) =
        [KeyItem.str (metaNamespaceKey sampleCluster)]) :=
  ⟨(c6_subordinate_routing sampleLister).1.2.1 ⟨unmanagedMeta⟩ rfl,
   (c6_subordinate_routing (fun _ _ => LookupResult.notFound)).1.2.2.1
     ⟨ownedMeta⟩ ⟨"a", some true⟩ rfl rfl,
   (c6_subordinate_routing sampleLister).1.2.2.2.2.1
     ⟨ownedMeta⟩ ⟨"a", some true⟩ sampleCluster rfl (by decide),
   (c6_subordinate_routing sampleLister).2.1.2.2.2.2.1
     ⟨ownedMeta⟩ ⟨"a", some true⟩ sampleCluster rfl (by decide),
   (c6_subordinate_routing sampleLister).2.2.1.2.2.2.2.1
     ⟨ownedMeta⟩ ⟨"a", some true⟩ sampleCluster rfl (by decide),
   (c6_subordinate_routing sampleLister).2.2.2.2.2.2.2.1
     ⟨ownedMeta⟩ ⟨"a", some true⟩ sampleCluster rfl (by decide)⟩

/-- C5: for every watched kind, an update event with structurally identical
old/new objects enqueues nothing; a changed object is handled like an add —
through `enqueueElasticsearchCluster` for the cluster kind and through the
kind's handler for subordinates — enqueuing exactly the affected owner's
namespace/name key. -/
theorem c5_update_suppression (l : Lister) :
    (∀ old cur : ElasticsearchCluster,
      old = cur → elasticsearchClusterUpdateFunc old cur = [])
    ∧ (∀ old cur : ElasticsearchCluster, old ≠ cur →
        elasticsearchClusterUpdateFunc old cur = enqueueElasticsearchCluster cur
        ∧ elasticsearchClusterUpdateFunc old cur =
            [KeyItem.str (metaNamespaceKey cur)])
    ∧ (∀ old cur : SubordinatePayload Deployment,
        old = cur → deployUpdateFunc l old cur = [])
    ∧ (∀ old cur : SubordinatePayload Deployment, old ≠ cur →
        deployUpdateFunc l old cur = handleDeploy l cur)
    ∧ (∀ (old : SubordinatePayload Deployment) (d : Deployment) ref c,
        old ≠ SubordinatePayload.typed d →
        managedOwnerRef d.objectMeta = some ref →
        l d.objectMeta.namespace_ ref.name = LookupResult.found c →
        deployUpdateFunc l old (SubordinatePayload.typed d) =
          [KeyItem.str (metaNamespaceKey c)])
    ∧ (∀ old new_ : SubordinatePayload StatefulSet,
        old = new_ → statefulSetUpdateFunc l old new_ = [])
    ∧ (∀ old new_ : SubordinatePayload StatefulSet, old ≠ new_ →
        statefulSetUpdateFunc l old new_ = handleStatefulSet l new_)
    ∧ (∀ (old : SubordinatePayload StatefulSet) (ss : StatefulSet) ref c,
        old ≠ SubordinatePayload.typed ss →
        managedOwnerRef ss.objectMeta = some ref →
        l ss.objectMeta.namespace_ ref.name = LookupResult.found c →
        statefulSetUpdateFunc l old (SubordinatePayload.typed ss) =
          [KeyItem.str (metaNamespaceKey c)])
    ∧ (∀ old new_ : SubordinatePayload ServiceAccount,
        old = new_ → serviceAccountUpdateFunc l old new_ = [])
    ∧ (∀ old new_ : SubordinatePayload ServiceAccount, old ≠ new_ →
        serviceAccountUpdateFunc l old new_ = handleServiceAccount l new_)
    ∧ (∀ (old : SubordinatePayload ServiceAccount) (sa : ServiceAccount) ref c,
        old ≠ SubordinatePayload.typed sa →
        managedOwnerRef sa.objectMeta = some ref →
        l sa.objectMeta.namespace_ ref.name = LookupResult.found c →
        serviceAccountUpdateFunc l old (SubordinatePayload.typed sa) =
          [KeyItem.str (metaNamespaceKey c)])
    ∧ (∀ old new_ : SubordinatePayload Service,
        old = new_ → serviceUpdateFunc l old new_ = [])
    ∧ (∀ old new_ : SubordinatePayload Service, old ≠ new_ →
        serviceUpdateFunc l old new_ = handleService l new_)
    ∧ (∀ (old : SubordinatePayload Service) (sv : Service) ref c,
        old ≠ SubordinatePayload.typed sv →
        managedOwnerRef sv.objectMeta = some ref →
        l sv.objectMeta.namespace_ ref.name = LookupResult.found c →
        serviceUpdateFunc l old (SubordinatePayload.typed sv) =
          [KeyItem.str (metaNamespaceKey c)]) := by
  refine ⟨?_, ?_, ?_, ?_, ?_, ?_, ?_, ?_, ?_, ?_, ?_, ?_, ?_, ?_⟩
  · intro old cur h
    simp [elasticsearchClusterUpdateFunc, h]
  · intro old cur h
    constructor
    · simp [elasticsearchClusterUpdateFunc, h]
    · simp [elasticsearchClusterUpdateFunc, h, enqueueElasticsearchCluster,
        keyFunc]
  · intro old cur h
    simp [deployUpdateFunc, h]
  · intro old cur h
    simp [deployUpdateFunc, h]
  · intro old d ref c h href hlook
    rw [deployUpdateFunc, if_neg h]
    exact (handleSubordinate_spec Deployment.objectMeta l).2.2.2.2 d ref c
      href hlook
  · intro old new_ h
    simp [statefulSetUpdateFunc, h]
  · intro old new_ h
    simp [statefulSetUpdateFunc, h]
  · intro old ss ref c h href hlook
    rw [statefulSetUpdateFunc, if_neg h]
    exact (handleSubordinate_spec StatefulSet.objectMeta l).2.2.2.2 ss ref c
      href hlook
  · intro old new_ h
    simp [serviceAccountUpdateFunc, h]
  · intro old new_ h
    simp [serviceAccountUpdateFunc, h]
  · intro old sa ref c h href hlook
    rw [serviceAccountUpdateFunc, if_neg h]
    exact (handleSubordinate_spec ServiceAccount.objectMeta l).2.2.2.2 sa ref c
      href hlook
  · intro old new_ h
    simp [serviceUpdateFunc, h]
  · intro old new_ h
    simp [serviceUpdateFunc, h]
  · intro old sv ref c h href hlook
    rw [serviceUpdateFunc, if_neg h]
    exact (handleSubordinate_spec Service.objectMeta l).2.2.2.2 sv ref c
      href hlook

theorem c5_witness :
    (elasticsearchClusterUpdateFunc sampleCluster sampleCluster = [])
    ∧ (elasticsearchClusterUpdateFunc
        { sampleCluster with name := "b" } sampleCluster =
        [KeyItem.str (metaNamespaceKey sampleCluster)])
    ∧ (deployUpdateFunc sampleLister (SubordinatePayload.typed ⟨ownedMeta⟩)
        (SubordinatePayload.typed ⟨ownedMeta⟩) = [])
    ∧ (deployUpdateFunc sampleLister SubordinatePayload.wrongType
        (SubordinatePayload.typed ⟨ownedMeta⟩) =
        [KeyItem.str (metaNamespaceKey sampleCluster)])
    ∧ (statefulSetUpdateFunc sampleLister
        (SubordinatePayload.typed ⟨ownedMeta⟩)
        (SubordinatePayload.typed ⟨ownedMeta⟩) = [])
    ∧ (statefulSetUpdateFunc sampleLister SubordinatePayload.wrongType
        (SubordinatePayload.typed ⟨ownedMeta⟩) =
        [KeyItem.str (metaNamespaceKey sampleCluster)])
    ∧ (serviceAccountUpdateFunc sampleLister
        (SubordinatePayload.typed ⟨ownedMeta⟩)
        (SubordinatePayload.typed ⟨ownedMeta⟩) = [])
    ∧ (serviceAccountUpdateFunc sampleLister SubordinatePayload.wrongType
        (SubordinatePayload.typed ⟨ownedMeta⟩) =
        [KeyItem.str (metaNamespaceKey sampleCluster)])
    ∧ (serviceUpdateFunc sampleLister
        (SubordinatePayload.typed ⟨ownedMeta⟩)
        (SubordinatePayload.typed ⟨ownedMeta⟩) = [])
    ∧ (serviceUpdateFunc sampleLister SubordinatePayload.wrongType
        (SubordinatePayload.typed ⟨ownedMeta⟩) =
        [KeyItem.str (metaNamespaceKey sampleCluster)]) :=
  ⟨(c5_update_suppression sampleLister).1 sampleCluster sampleCluster rfl,
   ((c5_update_suppression sampleLister).2.1
     { sampleCluster with name := "b" } sampleCluster (by decide)).2,
   (c5_update_suppression sampleLister).2.2.1 _ _ rfl,
   (c5_update_suppression sampleLister).2.2.2.2.1 SubordinatePayload.wrongType
     ⟨ownedMeta⟩ ⟨"a", some true⟩ sampleCluster (by decide) rfl (by decide),
   (c5_update_suppression sampleLister).2.2.2.2.2.1 _ _ rfl,
   (c5_update_suppression sampleLister).2.2.2.2.2.2.2.1
     SubordinatePayload.wrongType ⟨ownedMeta⟩ ⟨"a", some true⟩ sampleCluster
     (by decide) rfl (by decide),
   (c5_update_suppression sampleLister).2.2.2.2.2.2.2.2.1 _ _ rfl,
   (c5_update_suppression sampleLister).2.2.2.2.2.2.2.2.2.2.1
     SubordinatePayload.wrongType ⟨ownedMeta⟩ ⟨"a", some true⟩ sampleCluster
     (by decide) rfl (by decide),
   (c5_update_suppression sampleLister).2.2.2.2.2.2.2.2.2.2.2.1 _ _ rfl,
   (c5_update_suppression sampleLister).2.2.2.2.2.2.2.2.2.2.2.2.2
     SubordinatePayload.wrongType ⟨ownedMeta⟩ ⟨"a", some true⟩ sampleCluster
     (by decide) rfl (by decide)⟩

/-- C4 counterexample: with the ElasticsearchCluster, Deployment and
StatefulSet caches synced but the ServiceAccount and Service caches not
synced, `Run`'s cache wait succeeds (no timeout is even logged) and the
workers are started — the ServiceAccount and Service caches are not part of
the startup barrier at all. -/
theorem c4_counterexample :
    (CacheSyncState.mk true true true false false).serviceAccountSynced = false
    ∧ (CacheSyncState.mk true true true false false).serviceSynced = false
    ∧ waitForCacheSync ⟨true, true, true, false, false⟩ = true
    ∧ run ⟨true, true, true, false, false⟩ 1 =
        [RunEvent.waitedForCaches runWaitedCaches true,
          RunEvent.startedWorkers 1, RunEvent.blockedOnStop]
    ∧ CacheKind.serviceAccount ∉ runWaitedCaches
    ∧ CacheKind.service ∉ runWaitedCaches := by
  refine ⟨rfl, rfl, rfl, rfl, by decide, by decide⟩

/-- C4 (amended): `Run` starts its worker loops only after the wait on the
Deployment, ElasticsearchCluster and StatefulSet caches; the wait succeeds
exactly when those three caches report synced, and when it fails `Run` logs
the timeout and still starts the workers (degraded-but-running) rather than
halting. -/
theorem c4_run_barrier (s : CacheSyncState) (workers : Nat) :
    (waitForCacheSync s = true ↔
      (s.deploySynced = true ∧ s.esSynced = true ∧ s.statefulSetSynced = true))
    ∧ (∃ pre post, run s workers =
        pre ++ RunEvent.startedWorkers workers :: post
        ∧ RunEvent.waitedForCaches runWaitedCaches (waitForCacheSync s) ∈ pre)
    ∧ (waitForCacheSync s = false →
        RunEvent.loggedSyncTimeout ∈ run s workers
        ∧ RunEvent.startedWorkers workers ∈ run s workers) := by
  refine ⟨?_, ?_, ?_⟩
  · simp [waitForCacheSync, runWaitedCaches, cacheSynced]
  · cases h : waitForCacheSync s with
    | true =>
      refine ⟨[RunEvent.waitedForCaches runWaitedCaches true],
        [RunEvent.blockedOnStop], ?_, by simp⟩
      simp [run, h]
    | false =>
      refine ⟨[RunEvent.waitedForCaches runWaitedCaches false,
        RunEvent.loggedSyncTimeout], [RunEvent.blockedOnStop], ?_, by simp⟩
      simp [run, h]
  · intro h
    constructor <;> simp [run, h]

theorem c4_witness :
    RunEvent.loggedSyncTimeout ∈ run ⟨false, false, false, false, false⟩ 2
    ∧ RunEvent.startedWorkers 2 ∈ run ⟨false, false, false, false, false⟩ 2 :=
  (c4_run_barrier ⟨false, false, false, false, false⟩ 2).2.2 (by decide)

theorem c2_witness :
    verifyElasticsearchCluster ⟨"ns", "x", ⟨"", []⟩, none⟩ ≠ none :=
  ((c2_validator_rejects_iff.1 ⟨"ns", "x", ⟨"", []⟩, none⟩).mpr (Or.inl rfl))

theorem c3_witness :
    processNextWorkItem sampleLister (fun _ => some "boom") 5
        (some (KeyItem.cluster sampleCluster)) =
      ⟨[QueueAction.forget (KeyItem.cluster sampleCluster),
        QueueAction.done (KeyItem.cluster sampleCluster)],
        [{ sampleCluster with deletionTimestamp := some 5 }], true⟩ :=
  (c3_snapshot_key_forgotten sampleLister (fun _ => some "boom") 5
    sampleCluster).1

theorem c8_witness :
    verifyElasticsearchCluster sampleCluster =
      (clusterViolations sampleCluster).head? :=
  c8_validator_first_violation.1 sampleCluster

theorem c9_witness :
    processNextWorkItem sampleLister (fun _ => none) 0
        (some KeyItem.tombstone) =
      ⟨[QueueAction.done KeyItem.tombstone], [], true⟩ :=
  (c9_unknown_key_discarded sampleLister (fun _ => none) 0).1

end Navigator
